import Mathlib

/-!
Shallow embedding of `main.ts` of the project-planner-mcp repository: a
GitHub Projects MCP server whose tool handlers validate parameters, build a
fixed GraphQL document plus a variable object, and perform one (for
`add_item_to_project`, up to two) HTTP round trips through a single helper
`executeGitHubGraphQL`.

The network is modelled by a scripted list of HTTP responses consumed in
order; every issued request is recorded in a trace of `NetCall`s, so that
claims about "how many network calls are issued" become statements about
that trace.  JSON values are modelled by the inductive `JVal`; JavaScript
property access (which throws a TypeError on `undefined`/`null` receivers
and yields `undefined` on absent fields) is modelled by `jsGet`/`jsIndex`
over `Option JVal`, where `none` plays the role of `undefined`.
-/

/-- A JSON-compatible value (the payloads and variable objects of the
GraphQL calls). Object fields keep their insertion order. -/
inductive JVal where
  | null : JVal
  | boolean : Bool → JVal
  | num : Int → JVal
  | str : String → JVal
  | arr : List JVal → JVal
  | obj : List (String × JVal) → JVal

/-- The error classification of the embedded code.  The first five
correspond to errors the source actually throws (`GITHUB_TOKEN ... is not
set`, the non-2xx `GitHub API error (status): body` message, a rejected
fetch, a JavaScript TypeError from accessing a property of `undefined`,
and the thrown validation messages).  `notFound` is part of the error
taxonomy used by the specification; the embedded code never constructs
it. -/
inductive Err where
  | missingCredential : Err
  | upstreamError : Nat → String → Err
  | transportError : Err
  | jsTypeError : Err
  | invalidParameter : String → Err
  | notFound : Err
deriving DecidableEq, Repr

/-- Whether an error is an `invalidParameter` error (of any parameter). -/
def Err.isInvalidParam : Err → Bool
  | .invalidParameter _ => true
  | _ => false

/-- One outbound request as recorded in the trace: the GraphQL document
text and the variable object (the JSON body is `{query, variables}`). -/
structure NetCall where
  query : String
  vars : JVal

/-- A scripted HTTP response: status code, raw body text (what
`response.text()` yields) and parsed JSON body (what `response.json()`
yields). -/
structure HttpResponse where
  status : Nat
  bodyText : String
  bodyJson : JVal

/-- The process environment of one invocation: the optional
`GITHUB_TOKEN` value and the scripted remote responses, consumed in
order. -/
structure Env where
  token : Option String
  responses : List HttpResponse

/-- Embedding of `executeGitHubGraphQL` (main.ts lines 25-51): if the
token is absent, fail with `missingCredential` before any network
activity; otherwise issue one POST (recorded in the trace), and on a
non-ok status (outside 200..299) fail with `upstreamError status body`,
on an ok status return the parsed JSON body verbatim.  A rejected fetch
(empty script) is a `transportError`.  Returns the outcome, the list of
issued calls, and the remaining scripted responses. -/
def executeGitHubGraphQL (token : Option String) (responses : List HttpResponse)
    (query : String) (vars : JVal) :
    Except Err JVal × List NetCall × List HttpResponse :=
  match token with
  | none => (.error .missingCredential, [], responses)
  | some _ =>
    match responses with
    | [] => (.error .transportError, [⟨query, vars⟩], [])
    | r :: rest =>
      if 200 ≤ r.status ∧ r.status < 300 then
        (.ok r.bodyJson, [⟨query, vars⟩], rest)
      else
        (.error (.upstreamError r.status r.bodyText), [⟨query, vars⟩], rest)

/-- Ordered lookup of a field in the field list of a JSON object. -/
def jlookup : List (String × JVal) → String → Option JVal
  | [], _ => none
  | (k, v) :: rest, key => if k = key then some v else jlookup rest key

/-- JavaScript property access `base.key` where `none` models
`undefined`: accessing a property of `undefined` or `null` throws a
TypeError; an absent field of an object, or a field of a primitive,
yields `undefined`. -/
def jsGet : Option JVal → String → Except Err (Option JVal)
  | none, _ => .error .jsTypeError
  | some .null, _ => .error .jsTypeError
  | some (.obj fields), key => .ok (jlookup fields key)
  | some _, _ => .ok none

/-- JavaScript index access `base[i]`: throws a TypeError on
`undefined`/`null`, yields the element or `undefined` on an array, and
`undefined` on other values. -/
def jsIndex : Option JVal → Nat → Except Err (Option JVal)
  | none, _ => .error .jsTypeError
  | some .null, _ => .error .jsTypeError
  | some (.arr xs), i => .ok xs[i]?
  | some _, _ => .ok none

/-- JavaScript truthiness of an optional string parameter: `undefined`
and the empty string are falsy. -/
def strTruthy : Option String → Bool
  | none => false
  | some s => !s.isEmpty

/-- The value of a variable bound in the variable object of a call (for
stating which values were transmitted). -/
def NetCall.varOf (c : NetCall) (key : String) : Option JVal :=
  match c.vars with
  | .obj fields => jlookup fields key
  | _ => none

/-!
The GraphQL documents of `main.ts`, one constant per template literal in
the source (whitespace normalized to single spaces; braces written with
their character codes).  Each is a fixed string: no caller-supplied value
is ever interpolated into a document.
-/

def getProjectIdQuery : String :=
  "query GetOrganizationProjects($org: String!, $projectName: String!) \x7b organization(login: $org) \x7b projectsV2(first: 10, query: $projectName) \x7b nodes \x7b id title \x7d \x7d \x7d \x7d"

def getGithubProjectsQuery : String :=
  "query GetOrganizationProjects($org: String!) \x7b organization(login: $org) \x7b projectsV2(first: 20) \x7b nodes \x7b id title shortDescription url closed createdAt updatedAt \x7d \x7d \x7d \x7d"

def getProjectDetailsQuery : String :=
  "query GetProjectDetails($id: ID!) \x7b node(id: $id) \x7b ... on ProjectV2 \x7b id title shortDescription url closed createdAt updatedAt readme items(first: 20) \x7b nodes \x7b id content \x7b ... on Issue \x7b title url state \x7d ... on PullRequest \x7b title url state \x7d \x7d fieldValues(first: 8) \x7b nodes \x7b ... on ProjectV2ItemFieldTextValue \x7b text field \x7b ... on ProjectV2FieldCommon \x7b name \x7d \x7d \x7d ... on ProjectV2ItemFieldDateValue \x7b date field \x7b ... on ProjectV2FieldCommon \x7b name \x7d \x7d \x7d ... on ProjectV2ItemFieldSingleSelectValue \x7b name field \x7b ... on ProjectV2FieldCommon \x7b name \x7d \x7d \x7d \x7d \x7d \x7d \x7d fields(first: 20) \x7b nodes \x7b ... on ProjectV2FieldCommon \x7b id name \x7d ... on ProjectV2SingleSelectField \x7b id name options \x7b id name color \x7d \x7d \x7d \x7d \x7d \x7d \x7d"

def getRepositoryIssuesQuery : String :=
  "query GetRepositoryIssues($owner: String!, $repo: String!, $states: [IssueState!], $first: Int!) \x7b repository(owner: $owner, name: $repo) \x7b issues(first: $first, states: $states, orderBy: \x7bfield: CREATED_AT, direction: DESC\x7d) \x7b nodes \x7b id number title state createdAt updatedAt url author \x7b login \x7d labels(first: 10) \x7b nodes \x7b name color \x7d \x7d assignees(first: 5) \x7b nodes \x7b login avatarUrl \x7d \x7d projectsV2(first: 10) \x7b nodes \x7b id title \x7d \x7d \x7d \x7d \x7d \x7d"

def getRepositoryPullRequestsQuery : String :=
  "query GetRepositoryPullRequests($owner: String!, $repo: String!, $states: [PullRequestState!], $first: Int!) \x7b repository(owner: $owner, name: $repo) \x7b pullRequests(first: $first, states: $states, orderBy: \x7bfield: CREATED_AT, direction: DESC\x7d) \x7b nodes \x7b id number title state createdAt updatedAt url author \x7b login \x7d labels(first: 10) \x7b nodes \x7b name color \x7d \x7d assignees(first: 5) \x7b nodes \x7b login avatarUrl \x7d \x7d reviews(first: 10) \x7b nodes \x7b author \x7b login \x7d state \x7d \x7d projectsV2(first: 10) \x7b nodes \x7b id title \x7d \x7d \x7d \x7d \x7d \x7d"

def addProjectItemMutation : String :=
  "mutation AddProjectItem($input: AddProjectV2ItemByIdInput!) \x7b addProjectV2ItemById(input: $input) \x7b item \x7b id \x7d \x7d \x7d"

def addDraftIssueMutation : String :=
  "mutation AddDraftIssue($input: AddProjectV2DraftIssueInput!) \x7b addProjectV2DraftIssue(input: $input) \x7b projectItem \x7b id \x7d \x7d \x7d"

def updateProjectItemFieldMutation : String :=
  "mutation UpdateProjectItemField($input: UpdateProjectV2ItemFieldValueInput!) \x7b updateProjectV2ItemFieldValue(input: $input) \x7b projectV2Item \x7b id \x7d \x7d \x7d"

def getOrgReposQuery : String :=
  "query GetOrgRepos($owner: String!, $first: Int!) \x7b organization(login: $owner) \x7b repositories(first: $first, orderBy: \x7bfield: UPDATED_AT, direction: DESC\x7d) \x7b nodes \x7b id name description url stargazerCount forkCount isPrivate updatedAt \x7d \x7d \x7d \x7d"

def getUserReposQuery : String :=
  "query GetUserRepos($owner: String!, $first: Int!) \x7b user(login: $owner) \x7b repositories(first: $first, orderBy: \x7bfield: UPDATED_AT, direction: DESC\x7d) \x7b nodes \x7b id name description url stargazerCount forkCount isPrivate updatedAt \x7d \x7d \x7d \x7d"

def getProjectViewsQuery : String :=
  "query GetProjectViews($id: ID!) \x7b node(id: $id) \x7b ... on ProjectV2 \x7b views(first: 10) \x7b nodes \x7b id name layout fields \x7b ... on ProjectV2FieldCommon \x7b id name \x7d \x7d \x7d \x7d \x7d \x7d \x7d"


/-- The JavaScript expression `data.data.organization.projectsV2.nodes[0].id`
evaluated over a parsed response body (main.ts line 91). -/
def firstProjectId (data : JVal) : Except Err (Option JVal) := do
  let a ← jsGet (some data) "data"
  let b ← jsGet a "organization"
  let c ← jsGet b "projectsV2"
  let d ← jsGet c "nodes"
  let e ← jsIndex d 0
  jsGet e "id"

/-- Embedding of `getProjectId` (main.ts lines 76-92): one lookup call
through the executor, then `data.data.organization.projectsV2.nodes[0].id`
over the response body.  Returns the (possibly `undefined`) id value, the
issued calls and the remaining script. -/
def getProjectId (token : Option String) (responses : List HttpResponse)
    (organization projectName : String) :
    Except Err (Option JVal) × List NetCall × List HttpResponse :=
  match executeGitHubGraphQL token responses getProjectIdQuery
      (.obj [("org", .str organization), ("projectName", .str projectName)]) with
  | (.error e, calls, rest) => (.error e, calls, rest)
  | (.ok data, calls, rest) =>
    match firstProjectId data with
    | .error e => (.error e, calls, rest)
    | .ok v => (.ok v, calls, rest)

/-- Embedding of the `get_github_projects` tool handler (main.ts 99-126). -/
def get_github_projects (env : Env) (organization : String) :
    Except Err JVal × List NetCall :=
  let (r, calls, _) := executeGitHubGraphQL env.token env.responses
    getGithubProjectsQuery (.obj [("org", .str organization)])
  (r, calls)

/-- Embedding of the `get_project_details` tool handler (main.ts 136-224). -/
def get_project_details (env : Env) (projectId : String) :
    Except Err JVal × List NetCall :=
  let (r, calls, _) := executeGitHubGraphQL env.token env.responses
    getProjectDetailsQuery (.obj [("id", .str projectId)])
  (r, calls)

/-- Embedding of the `get_repository_issues` tool handler (main.ts
231-285), taking validated parameters.  Line 279:
`states === "ALL" ? ["OPEN", "CLOSED"] : [states]`. -/
def get_repository_issues (env : Env) (owner repo states : String) (first : Int) :
    Except Err JVal × List NetCall :=
  let issueStates := if states = "ALL" then ["OPEN", "CLOSED"] else [states]
  let (r, calls, _) := executeGitHubGraphQL env.token env.responses
    getRepositoryIssuesQuery
    (.obj [("owner", .str owner), ("repo", .str repo),
           ("states", .arr (issueStates.map JVal.str)), ("first", .num first)])
  (r, calls)

/-- Embedding of the `get_repository_pull_requests` tool handler (main.ts
292-354), taking validated parameters.  Line 348:
`states === "ALL" ? ["OPEN", "CLOSED", "MERGED"] : [states]`. -/
def get_repository_pull_requests (env : Env) (owner repo states : String)
    (first : Int) : Except Err JVal × List NetCall :=
  let prStates := if states = "ALL" then ["OPEN", "CLOSED", "MERGED"] else [states]
  let (r, calls, _) := executeGitHubGraphQL env.token env.responses
    getRepositoryPullRequestsQuery
    (.obj [("owner", .str owner), ("repo", .str repo),
           ("states", .arr (prStates.map JVal.str)), ("first", .num first)])
  (r, calls)

/-- A JSON object field that is omitted when its value is `undefined`
(JSON serialization drops `undefined`-valued fields of the in-memory
variable object). -/
def optField (key : String) : Option JVal → List (String × JVal)
  | some v => [(key, v)]
  | none => []

/-- The parameters of `add_item_to_project` after zod validation: all four
optional fields are plain optional strings with no further constraint. -/
structure AddItemParams where
  organization : String
  projectName : String
  projectId : Option String
  contentId : Option String
  title : Option String
  body : Option String

/-- Embedding of the `add_item_to_project` tool handler (main.ts 361-424):
`if (!projectId)` resolves the id through `getProjectId` first (JavaScript
truthiness: an absent or empty `projectId` triggers the lookup); then
`if (contentId)` sends the content-linking mutation, `else if (title)`
the draft-issue mutation (with `body: body || ""`), else throws
`Either contentId or title must be provided`. -/
def add_item_to_project (env : Env) (p : AddItemParams) :
    Except Err JVal × List NetCall :=
  let (pid, calls1, rest1) :=
    if strTruthy p.projectId then
      (Except.ok (some (JVal.str (p.projectId.getD ""))), ([] : List NetCall),
        env.responses)
    else
      getProjectId env.token env.responses p.organization p.projectName
  match pid with
  | .error e => (.error e, calls1)
  | .ok projectIdVal =>
    if strTruthy p.contentId then
      let (r, calls2, _) := executeGitHubGraphQL env.token rest1
        addProjectItemMutation
        (.obj [("input", .obj (optField "projectId" projectIdVal ++
          [("contentId", .str (p.contentId.getD ""))]))])
      (r, calls1 ++ calls2)
    else if strTruthy p.title then
      let (r, calls2, _) := executeGitHubGraphQL env.token rest1
        addDraftIssueMutation
        (.obj [("input", .obj (optField "projectId" projectIdVal ++
          [("title", .str (p.title.getD "")), ("body", .str (p.body.getD ""))]))])
      (r, calls1 ++ calls2)
    else
      (.error (.invalidParameter "contentId|title"), calls1)

/-- Embedding of the `update_project_item_field` tool handler (main.ts
431-465). -/
def update_project_item_field (env : Env) (projectId itemId fieldId value : String) :
    Except Err JVal × List NetCall :=
  let (r, calls, _) := executeGitHubGraphQL env.token env.responses
    updateProjectItemFieldMutation
    (.obj [("input", .obj [("projectId", .str projectId), ("itemId", .str itemId),
      ("fieldId", .str fieldId), ("value", .str value)])])
  (r, calls)

/-- Embedding of the `get_repositories` tool handler (main.ts 472-523):
`isOrg` selects between the organization and the user document. -/
def get_repositories (env : Env) (owner : String) (isOrg : Bool) (first : Int) :
    Except Err JVal × List NetCall :=
  let (r, calls, _) := executeGitHubGraphQL env.token env.responses
    (if isOrg then getOrgReposQuery else getUserReposQuery)
    (.obj [("owner", .str owner), ("first", .num first)])
  (r, calls)

/-- Embedding of the `get_project_views` tool handler (main.ts 530-561). -/
def get_project_views (env : Env) (projectId : String) :
    Except Err JVal × List NetCall :=
  let (r, calls, _) := executeGitHubGraphQL env.token env.responses
    getProjectViewsQuery (.obj [("id", .str projectId)])
  (r, calls)

/-- Embedding of the zod constraint `z.number().min(1).max(100).default(20)`
(numbers restricted to integers in this embedding): an omitted value gets
the default 20; a supplied value outside [1,100] is rejected before the
handler runs. -/
def zodFirst : Option Int → Except Err Int
  | none => .ok 20
  | some n => if 1 ≤ n ∧ n ≤ 100 then .ok n else .error (.invalidParameter "first")

/-- Embedding of `z.enum(allowed).default(dflt)`: an omitted value gets
the default; a supplied value outside the enumeration is rejected. -/
def zodEnum (allowed : List String) (dflt : String) (name : String) :
    Option String → Except Err String
  | none => .ok dflt
  | some s => if s ∈ allowed then .ok s else .error (.invalidParameter name)

/-- Raw (pre-validation) parameters of `get_repository_issues` and
`get_repository_pull_requests`. -/
structure RawRepoQueryParams where
  owner : String
  repo : String
  states : Option String
  first : Option Int

/-- Raw (pre-validation) parameters of `get_repositories`. -/
structure RawReposParams where
  owner : String
  isOrg : Option Bool
  first : Option Int

/-- `get_repository_issues` including its zod validation layer: a zod
failure is reported before the handler runs, so no call is issued. -/
def get_repository_issues_invoke (env : Env) (p : RawRepoQueryParams) :
    Except Err JVal × List NetCall :=
  match zodEnum ["OPEN", "CLOSED", "ALL"] "OPEN" "states" p.states with
  | .error e => (.error e, [])
  | .ok states =>
    match zodFirst p.first with
    | .error e => (.error e, [])
    | .ok first => get_repository_issues env p.owner p.repo states first

/-- `get_repository_pull_requests` including its zod validation layer. -/
def get_repository_pull_requests_invoke (env : Env) (p : RawRepoQueryParams) :
    Except Err JVal × List NetCall :=
  match zodEnum ["OPEN", "CLOSED", "MERGED", "ALL"] "OPEN" "states" p.states with
  | .error e => (.error e, [])
  | .ok states =>
    match zodFirst p.first with
    | .error e => (.error e, [])
    | .ok first => get_repository_pull_requests env p.owner p.repo states first

/-- `get_repositories` including its zod validation layer (`isOrg`
defaults to `false`). -/
def get_repositories_invoke (env : Env) (p : RawReposParams) :
    Except Err JVal × List NetCall :=
  match zodFirst p.first with
  | .error e => (.error e, [])
  | .ok first => get_repositories env p.owner (p.isOrg.getD false) first

/-- The content of a variable inside the nested `input` object of a
mutation call. -/
def NetCall.inputField (c : NetCall) (key : String) : Option JVal :=
  match c.varOf "input" with
  | some (.obj fields) => jlookup fields key
  | _ => none

/-- Whether an invocation outcome is an `invalidParameter` failure. -/
def failsInvalidParam : Except Err JVal × List NetCall → Bool
  | (.error e, _) => e.isInvalidParam
  | (.ok _, _) => false

/-- A response body of the shape the `getProjectId` lookup requests:
`data.organization.projectsV2.nodes` holding the given node list. -/
def lookupBody (nodes : List JVal) : JVal :=
  .obj [("data", .obj [("organization",
    .obj [("projectsV2", .obj [("nodes", .arr nodes)])])])]

/-- Every call the executor issues carries exactly the document and
variable object it was given. -/
theorem exec_call_eq (token : Option String) (responses : List HttpResponse)
    (q : String) (v : JVal) :
    ∀ c ∈ (executeGitHubGraphQL token responses q v).2.1, c = ⟨q, v⟩ := by
  intro c hc
  cases token with
  | none => simp [executeGitHubGraphQL] at hc
  | some t =>
    cases responses with
    | nil => simpa [executeGitHubGraphQL] using hc
    | cons r rest =>
      by_cases h : 200 ≤ r.status ∧ r.status < 300 <;>
        simpa [executeGitHubGraphQL, h] using hc

/-- Every call `getProjectId` issues is the lookup call. -/
theorem getProjectId_call_eq (token : Option String)
    (responses : List HttpResponse) (org nm : String) :
    ∀ c ∈ (getProjectId token responses org nm).2.1,
      c = ⟨getProjectIdQuery, .obj [("org", .str org), ("projectName", .str nm)]⟩ := by
  intro c hc
  unfold getProjectId at hc
  rcases hexec : executeGitHubGraphQL token responses getProjectIdQuery
      (.obj [("org", .str org), ("projectName", .str nm)]) with ⟨res, calls, rest⟩
  have hcalls := exec_call_eq token responses getProjectIdQuery
    (.obj [("org", .str org), ("projectName", .str nm)])
  rw [hexec] at hc hcalls
  cases res with
  | error e => exact hcalls c (by simpa using hc)
  | ok data =>
    cases hfp : firstProjectId data with
    | error e => exact hcalls c (by simpa [hfp] using hc)
    | ok v => exact hcalls c (by simpa [hfp] using hc)

/-- C6: on a non-success HTTP status the Executor fails with an
`UpstreamError` carrying that status code and the raw response body, and
the success envelope is never produced for that invocation. -/
theorem executor_non2xx_upstreamError (tok q : String) (v : JVal)
    (r : HttpResponse) (rest : List HttpResponse)
    (h : ¬(200 ≤ r.status ∧ r.status < 300)) :
    executeGitHubGraphQL (some tok) (r :: rest) q v =
      (.error (.upstreamError r.status r.bodyText), [⟨q, v⟩], rest) := by
  simp [executeGitHubGraphQL, h]

/-- Witness for C6: a simulated 401 response yields
`upstreamError 401 "Unauthorized"` with the response body, never a
success. -/
theorem executor_non2xx_upstreamError_witness :
    executeGitHubGraphQL (some "tok") [⟨401, "Unauthorized", .null⟩] "q" .null =
      (.error (.upstreamError 401 "Unauthorized"), [⟨"q", .null⟩], []) :=
  executor_non2xx_upstreamError "tok" "q" .null ⟨401, "Unauthorized", .null⟩ []
    (by decide)

/-- C7: on a success HTTP status the Executor returns the parsed JSON
body verbatim as a success, whatever that body is — in particular a body
holding a GraphQL `errors` array and no `data` is passed through without
inspection or reclassification. -/
theorem executor_2xx_body_verbatim (tok q : String) (v : JVal)
    (r : HttpResponse) (rest : List HttpResponse)
    (h1 : 200 ≤ r.status) (h2 : r.status < 300) :
    executeGitHubGraphQL (some tok) (r :: rest) q v =
      (.ok r.bodyJson, [⟨q, v⟩], rest) := by
  simp [executeGitHubGraphQL, h1, h2]

/-- Witness for C7: a 200 response whose body is
`{"errors": [...]}` with no `data` field is still returned verbatim as a
success. -/
theorem executor_2xx_body_verbatim_witness :
    executeGitHubGraphQL (some "tok")
        [⟨200, "", .obj [("errors", .arr [.str "boom"])]⟩] "q" .null =
      (.ok (.obj [("errors", .arr [.str "boom"])]),
       [⟨"q", .null⟩], []) :=
  executor_2xx_body_verbatim "tok" "q" .null
    ⟨200, "", .obj [("errors", .arr [.str "boom"])]⟩ [] (by decide) (by decide)

/-- C5 (amended): with `GITHUB_TOKEN` absent every operation fails and
issues zero network calls; the failure is `missingCredential` except for
the one `add_item_to_project` case in which the contentId/title check
throws before the executor is ever reached (a truthy `projectId` with
neither a truthy `contentId` nor a truthy `title`). -/
theorem token_absent_no_calls (rs : List HttpResponse) :
    (∀ org, get_github_projects ⟨none, rs⟩ org =
      (.error .missingCredential, [])) ∧
    (∀ pid, get_project_details ⟨none, rs⟩ pid =
      (.error .missingCredential, [])) ∧
    (∀ owner repo states first, get_repository_issues ⟨none, rs⟩ owner repo states first =
      (.error .missingCredential, [])) ∧
    (∀ owner repo states first, get_repository_pull_requests ⟨none, rs⟩ owner repo states first =
      (.error .missingCredential, [])) ∧
    (∀ pid iid fid v, update_project_item_field ⟨none, rs⟩ pid iid fid v =
      (.error .missingCredential, [])) ∧
    (∀ owner isOrg first, get_repositories ⟨none, rs⟩ owner isOrg first =
      (.error .missingCredential, [])) ∧
    (∀ pid, get_project_views ⟨none, rs⟩ pid =
      (.error .missingCredential, [])) ∧
    (∀ p, add_item_to_project ⟨none, rs⟩ p =
      (.error (if strTruthy p.projectId && !strTruthy p.contentId && !strTruthy p.title
               then Err.invalidParameter "contentId|title"
               else Err.missingCredential), [])) := by
  refine ⟨fun org => rfl, fun pid => rfl, fun a b c d => rfl, fun a b c d => rfl,
    fun a b c d => rfl, ?_, fun pid => rfl, ?_⟩
  · intro owner isOrg first
    cases isOrg <;> rfl
  · intro p
    cases hpj : strTruthy p.projectId <;> cases hc : strTruthy p.contentId <;>
      cases ht : strTruthy p.title <;>
      simp [add_item_to_project, getProjectId, executeGitHubGraphQL, hpj, hc, ht]

/-- Counterexample for C5 as stated: with the token absent,
`add_item_to_project` invoked with a `projectId` but neither `contentId`
nor `title` fails with the `Either contentId or title must be provided`
validation error, not with a missing-credential error (it does issue
zero network calls). -/
theorem token_absent_invalidParam_preempts :
    add_item_to_project ⟨none, []⟩ ⟨"o", "p", some "PID", none, none, none⟩ =
      (.error (.invalidParameter "contentId|title"), []) ∧
    Err.invalidParameter "contentId|title" ≠ Err.missingCredential :=
  ⟨rfl, by decide⟩

/-- C4: for `get_repository_issues` and `get_repository_pull_requests`,
`states = "ALL"` is transmitted as the full discrete state set of the
entity type (issues: OPEN, CLOSED; pull requests: OPEN, CLOSED, MERGED),
and any other states value is transmitted as the singleton list holding
that value. -/
theorem states_all_expansion :
    (∀ env owner repo first c,
      c ∈ (get_repository_issues env owner repo "ALL" first).2 →
        c.varOf "states" = some (.arr [.str "OPEN", .str "CLOSED"])) ∧
    (∀ env owner repo states first c, states ≠ "ALL" →
      c ∈ (get_repository_issues env owner repo states first).2 →
        c.varOf "states" = some (.arr [.str states])) ∧
    (∀ env owner repo first c,
      c ∈ (get_repository_pull_requests env owner repo "ALL" first).2 →
        c.varOf "states" = some (.arr [.str "OPEN", .str "CLOSED", .str "MERGED"])) ∧
    (∀ env owner repo states first c, states ≠ "ALL" →
      c ∈ (get_repository_pull_requests env owner repo states first).2 →
        c.varOf "states" = some (.arr [.str states])) := by
  refine ⟨?_, ?_, ?_, ?_⟩
  · intro env owner repo first c hc
    have := exec_call_eq env.token env.responses getRepositoryIssuesQuery
      (.obj [("owner", .str owner), ("repo", .str repo),
             ("states", .arr [.str "OPEN", .str "CLOSED"]), ("first", .num first)]) c
      (by simpa [get_repository_issues] using hc)
    simp [this, NetCall.varOf, jlookup]
  · intro env owner repo states first c hst hc
    have := exec_call_eq env.token env.responses getRepositoryIssuesQuery
      (.obj [("owner", .str owner), ("repo", .str repo),
             ("states", .arr [.str states]), ("first", .num first)]) c
      (by simpa [get_repository_issues, hst] using hc)
    simp [this, NetCall.varOf, jlookup]
  · intro env owner repo first c hc
    have := exec_call_eq env.token env.responses getRepositoryPullRequestsQuery
      (.obj [("owner", .str owner), ("repo", .str repo),
             ("states", .arr [.str "OPEN", .str "CLOSED", .str "MERGED"]),
             ("first", .num first)]) c
      (by simpa [get_repository_pull_requests] using hc)
    simp [this, NetCall.varOf, jlookup]
  · intro env owner repo states first c hst hc
    have := exec_call_eq env.token env.responses getRepositoryPullRequestsQuery
      (.obj [("owner", .str owner), ("repo", .str repo),
             ("states", .arr [.str states]), ("first", .num first)]) c
      (by simpa [get_repository_pull_requests, hst] using hc)
    simp [this, NetCall.varOf, jlookup]

/-- Witness for C4: a concrete `states = "ALL"` issues invocation
transmits the two-element state list. -/
theorem states_all_expansion_witness :
    NetCall.varOf ⟨getRepositoryIssuesQuery,
        .obj [("owner", .str "o"), ("repo", .str "r"),
              ("states", .arr [.str "OPEN", .str "CLOSED"]), ("first", .num 20)]⟩
        "states" = some (.arr [.str "OPEN", .str "CLOSED"]) :=
  states_all_expansion.1 ⟨some "t", [⟨200, "", .null⟩]⟩ "o" "r" 20
    ⟨getRepositoryIssuesQuery,
      .obj [("owner", .str "o"), ("repo", .str "r"),
            ("states", .arr [.str "OPEN", .str "CLOSED"]), ("first", .num 20)]⟩
    (by exact List.Mem.head _)

/-- C8: for the three repository-query operations a supplied `first`
outside [1,100] is rejected by validation with an `invalidParameter`
failure and no network call, and an omitted `first` behaves exactly as
the explicit default 20. -/
theorem first_range_and_default :
    (∀ env (p : RawRepoQueryParams) n, p.first = some n → (n < 1 ∨ 100 < n) →
      (get_repository_issues_invoke env p).2 = [] ∧
      failsInvalidParam (get_repository_issues_invoke env p) = true) ∧
    (∀ env (p : RawRepoQueryParams) n, p.first = some n → (n < 1 ∨ 100 < n) →
      (get_repository_pull_requests_invoke env p).2 = [] ∧
      failsInvalidParam (get_repository_pull_requests_invoke env p) = true) ∧
    (∀ env (p : RawReposParams) n, p.first = some n → (n < 1 ∨ 100 < n) →
      get_repositories_invoke env p = (.error (.invalidParameter "first"), [])) ∧
    (∀ env owner repo states,
      get_repository_issues_invoke env ⟨owner, repo, states, none⟩ =
      get_repository_issues_invoke env ⟨owner, repo, states, some 20⟩) ∧
    (∀ env owner repo states,
      get_repository_pull_requests_invoke env ⟨owner, repo, states, none⟩ =
      get_repository_pull_requests_invoke env ⟨owner, repo, states, some 20⟩) ∧
    (∀ env owner isOrg,
      get_repositories_invoke env ⟨owner, isOrg, none⟩ =
      get_repositories_invoke env ⟨owner, isOrg, some 20⟩) := by
  have hz : ∀ n : Int, (n < 1 ∨ 100 < n) →
      zodFirst (some n) = .error (.invalidParameter "first") := by
    intro n hn
    simp only [zodFirst]
    rw [if_neg (by omega)]
  have hz20 : zodFirst (some 20) = .ok 20 := by
    simp only [zodFirst]
    rw [if_pos (by norm_num)]
  refine ⟨?_, ?_, ?_, ?_, ?_, ?_⟩
  · intro env p n hfirst hrange
    cases he : zodEnum ["OPEN", "CLOSED", "ALL"] "OPEN" "states" p.states with
    | error e =>
      have : e.isInvalidParam = true := by
        cases hs : p.states with
        | none => rw [hs] at he; simp [zodEnum] at he
        | some s =>
          rw [hs] at he
          by_cases hmem : s ∈ ["OPEN", "CLOSED", "ALL"]
          · simp [zodEnum, hmem] at he
          · simp [zodEnum, hmem] at he
            simp [← he, Err.isInvalidParam]
      simp [get_repository_issues_invoke, he, failsInvalidParam, this]
    | ok s =>
      simp [get_repository_issues_invoke, he, hfirst, hz n hrange,
        failsInvalidParam, Err.isInvalidParam]
  · intro env p n hfirst hrange
    cases he : zodEnum ["OPEN", "CLOSED", "MERGED", "ALL"] "OPEN" "states" p.states with
    | error e =>
      have : e.isInvalidParam = true := by
        cases hs : p.states with
        | none => rw [hs] at he; simp [zodEnum] at he
        | some s =>
          rw [hs] at he
          by_cases hmem : s ∈ ["OPEN", "CLOSED", "MERGED", "ALL"]
          · simp [zodEnum, hmem] at he
          · simp [zodEnum, hmem] at he
            simp [← he, Err.isInvalidParam]
      simp [get_repository_pull_requests_invoke, he, failsInvalidParam, this]
    | ok s =>
      simp [get_repository_pull_requests_invoke, he, hfirst, hz n hrange,
        failsInvalidParam, Err.isInvalidParam]
  · intro env p n hfirst hrange
    simp [get_repositories_invoke, hfirst, hz n hrange]
  · intro env owner repo states
    cases he : zodEnum ["OPEN", "CLOSED", "ALL"] "OPEN" "states" states with
    | error e => simp [get_repository_issues_invoke, he]
    | ok s => simp [get_repository_issues_invoke, he, zodFirst, hz20]
  · intro env owner repo states
    cases he : zodEnum ["OPEN", "CLOSED", "MERGED", "ALL"] "OPEN" "states" states with
    | error e => simp [get_repository_pull_requests_invoke, he]
    | ok s => simp [get_repository_pull_requests_invoke, he, zodFirst, hz20]
  · intro env owner isOrg
    simp [get_repositories_invoke, zodFirst, hz20]

/-- Witness for C8: `get_repositories` with `first = 0` is rejected with
an `invalidParameter` failure and issues no call. -/
theorem first_range_and_default_witness :
    get_repositories_invoke ⟨some "t", [⟨200, "", .null⟩]⟩ ⟨"o", none, some 0⟩ =
      (.error (.invalidParameter "first"), []) :=
  first_range_and_default.2.2.1 ⟨some "t", [⟨200, "", .null⟩]⟩ ⟨"o", none, some 0⟩
    0 rfl (Or.inl (by norm_num))

/-- C2 (amended): with neither `contentId` nor `title` truthy,
`add_item_to_project` never succeeds and never issues the primary
mutation (every issued call is the auxiliary lookup); when a truthy
`projectId` is supplied the failure is the
`Either contentId or title must be provided` error and it precedes any
network call — but when `projectId` is absent the auxiliary lookup is
still issued before that check. -/
theorem neither_content_nor_title (env : Env) (p : AddItemParams)
    (hc : strTruthy p.contentId = false) (ht : strTruthy p.title = false) :
    (∀ v, (add_item_to_project env p).1 ≠ .ok v) ∧
    (∀ c ∈ (add_item_to_project env p).2, c.query = getProjectIdQuery) ∧
    (strTruthy p.projectId = true →
      add_item_to_project env p = (.error (.invalidParameter "contentId|title"), [])) := by
  cases hpj : strTruthy p.projectId with
  | true =>
    refine ⟨?_, ?_, fun _ => ?_⟩ <;> simp [add_item_to_project, hpj, hc, ht]
  | false =>
    rcases hg : getProjectId env.token env.responses p.organization p.projectName
      with ⟨res, calls, rest⟩
    have hlk := getProjectId_call_eq env.token env.responses p.organization p.projectName
    rw [hg] at hlk
    cases res with
    | error e =>
      have hmain : add_item_to_project env p = (.error e, calls) := by
        simp [add_item_to_project, hpj, hg]
      refine ⟨?_, ?_, ?_⟩
      · intro v
        simp [hmain]
      · intro c hcm
        rw [hmain] at hcm
        have := hlk c (by simpa using hcm)
        simp [this]
      · intro h
        simp at h
    | ok v =>
      have hmain : add_item_to_project env p =
          (.error (.invalidParameter "contentId|title"), calls) := by
        simp [add_item_to_project, hpj, hg, hc, ht]
      refine ⟨?_, ?_, ?_⟩
      · intro w
        simp [hmain]
      · intro c hcm
        rw [hmain] at hcm
        have := hlk c (by simpa using hcm)
        simp [this]
      · intro h
        simp at h

/-- Counterexample for C2 as stated: with neither `contentId` nor
`title` supplied and `projectId` absent, the auxiliary lookup call IS
issued (one network call) before the invocation fails — the failure does
not precede all network activity. -/
theorem neither_supplied_lookup_issued :
    add_item_to_project
        ⟨some "t", [⟨200, "",
          lookupBody [.obj [("id", .str "PVT_1"), ("title", .str "Alpha")]]⟩]⟩
        ⟨"org", "Alpha", none, none, none, none⟩ =
      (.error (.invalidParameter "contentId|title"),
       [⟨getProjectIdQuery,
         .obj [("org", .str "org"), ("projectName", .str "Alpha")]⟩]) ∧
    (add_item_to_project
        ⟨some "t", [⟨200, "",
          lookupBody [.obj [("id", .str "PVT_1"), ("title", .str "Alpha")]]⟩]⟩
        ⟨"org", "Alpha", none, none, none, none⟩).2.length = 1 :=
  ⟨rfl, rfl⟩

/-- Witness for the amended C2 theorem: with a truthy `projectId` and
neither `contentId` nor `title`, the invocation fails with the
validation error and issues zero calls. -/
theorem neither_content_nor_title_witness :
    add_item_to_project ⟨some "t", []⟩ ⟨"o", "p", some "PID", none, none, none⟩ =
      (.error (.invalidParameter "contentId|title"), []) :=
  (neither_content_nor_title ⟨some "t", []⟩ ⟨"o", "p", some "PID", none, none, none⟩
    rfl rfl).2.2 rfl

/-- On a success status the executor yields the body and one call. -/
theorem exec_ok (tok q : String) (v : JVal) (r : HttpResponse)
    (rest : List HttpResponse) (h1 : 200 ≤ r.status) (h2 : r.status < 300) :
    executeGitHubGraphQL (some tok) (r :: rest) q v =
      (.ok r.bodyJson, [⟨q, v⟩], rest) := by
  simp [executeGitHubGraphQL, h1, h2]

/-- With a token present and a scripted response available, the executor
issues exactly one call, whatever the response status. -/
theorem exec_calls_cons (tok q : String) (v : JVal) (r : HttpResponse)
    (rest : List HttpResponse) :
    (executeGitHubGraphQL (some tok) (r :: rest) q v).2.1 = [⟨q, v⟩] := by
  by_cases h : 200 ≤ r.status ∧ r.status < 300 <;> simp [executeGitHubGraphQL, h]

/-- C1 (amended): when the auxiliary lookup returns zero matching
projects, `add_item_to_project` fails — with the runtime TypeError of the
unchecked `nodes[0].id` access on an empty node list, not with a designed
NotFound error — and the only call issued is the lookup (no primary
mutation). -/
theorem empty_lookup_typeError (tok bt : String) (st : Nat)
    (rest : List HttpResponse) (p : AddItemParams)
    (hp : strTruthy p.projectId = false) (h1 : 200 ≤ st) (h2 : st < 300) :
    add_item_to_project ⟨some tok, ⟨st, bt, lookupBody []⟩ :: rest⟩ p =
      (.error .jsTypeError,
       [⟨getProjectIdQuery,
         .obj [("org", .str p.organization),
               ("projectName", .str p.projectName)]⟩]) := by
  have hfp : firstProjectId (lookupBody []) = .error .jsTypeError := rfl
  have hg : getProjectId (some tok) (⟨st, bt, lookupBody []⟩ :: rest)
      p.organization p.projectName =
      (.error .jsTypeError,
       [⟨getProjectIdQuery,
         .obj [("org", .str p.organization), ("projectName", .str p.projectName)]⟩],
       rest) := by
    simp [getProjectId,
      exec_ok tok getProjectIdQuery
        (.obj [("org", .str p.organization), ("projectName", .str p.projectName)])
        ⟨st, bt, lookupBody []⟩ rest h1 h2, hfp]
  simp [add_item_to_project, hp, hg]

/-- Counterexample for C1 as stated: at a concrete invocation whose
lookup returns zero projects, the failure is the runtime TypeError, which
is not the NotFound error the claim asserts. -/
theorem empty_lookup_not_notFound :
    (add_item_to_project ⟨some "t", [⟨200, "", lookupBody []⟩]⟩
        ⟨"org", "Alpha", none, some "C", none, none⟩).1 = .error .jsTypeError ∧
    Err.jsTypeError ≠ Err.notFound :=
  ⟨rfl, by decide⟩

/-- Witness for the amended C1 theorem at a concrete empty-lookup input. -/
theorem empty_lookup_typeError_witness :
    add_item_to_project ⟨some "t", [⟨200, "", lookupBody []⟩]⟩
        ⟨"org", "Alpha", none, some "C", none, none⟩ =
      (.error .jsTypeError,
       [⟨getProjectIdQuery,
         .obj [("org", .str "org"), ("projectName", .str "Alpha")]⟩]) :=
  empty_lookup_typeError "t" "" 200 [] ⟨"org", "Alpha", none, some "C", none, none⟩
    rfl (by norm_num) (by norm_num)

/-- C3 (amended): whenever `contentId` is truthy (supplied and nonempty)
— in particular when `title` is also supplied — every call
`add_item_to_project` issues is either the auxiliary lookup or the
content-linking mutation `addProjectV2ItemById`, whose variables bind the
`contentId` and carry no `title` and no `body` field; the draft-specific
parameters are ignored. -/
theorem contentId_precedence (env : Env) (p : AddItemParams)
    (h : strTruthy p.contentId = true) :
    ∀ c ∈ (add_item_to_project env p).2,
      c.query = getProjectIdQuery ∨
      (c.query = addProjectItemMutation ∧
       c.inputField "title" = none ∧ c.inputField "body" = none ∧
       c.inputField "contentId" = some (.str (p.contentId.getD ""))) := by
  intro c hcm
  cases hpj : strTruthy p.projectId with
  | true =>
    have hc := exec_call_eq env.token env.responses addProjectItemMutation
      (.obj [("input", .obj [("projectId", .str (p.projectId.getD "")),
        ("contentId", .str (p.contentId.getD ""))])]) c
      (by simpa [add_item_to_project, hpj, h] using hcm)
    right
    simp [hc, NetCall.inputField, NetCall.varOf, jlookup]
  | false =>
    rcases hg : getProjectId env.token env.responses p.organization p.projectName
      with ⟨res, calls, rest⟩
    have hlk := getProjectId_call_eq env.token env.responses p.organization p.projectName
    rw [hg] at hlk
    cases res with
    | error e =>
      have hmain : add_item_to_project env p = (.error e, calls) := by
        simp [add_item_to_project, hpj, hg]
      rw [hmain] at hcm
      left
      have := hlk c (by simpa using hcm)
      simp [this]
    | ok v =>
      have hmain : add_item_to_project env p =
          ((executeGitHubGraphQL env.token rest addProjectItemMutation
              (.obj [("input", .obj (optField "projectId" v ++
                [("contentId", .str (p.contentId.getD ""))]))])).1,
           calls ++ (executeGitHubGraphQL env.token rest addProjectItemMutation
              (.obj [("input", .obj (optField "projectId" v ++
                [("contentId", .str (p.contentId.getD ""))]))])).2.1) := by
        simp [add_item_to_project, hpj, hg, h]
      rw [hmain] at hcm
      rcases List.mem_append.mp hcm with hcl | hcr
      · left
        have := hlk c (by simpa using hcl)
        simp [this]
      · right
        have := exec_call_eq env.token rest addProjectItemMutation
          (.obj [("input", .obj (optField "projectId" v ++
            [("contentId", .str (p.contentId.getD ""))]))]) c hcr
        cases v with
        | none => simp [this, NetCall.inputField, NetCall.varOf, jlookup, optField]
        | some w => simp [this, NetCall.inputField, NetCall.varOf, jlookup, optField]

/-- Counterexample for C3 as stated: with both parameters supplied but
`contentId` the empty string (falsy in JavaScript), the invocation sends
the draft-issue mutation — whose variables carry the `title` — and not
the content-linking mutation. -/
theorem empty_contentId_draft_mutation :
    add_item_to_project
        ⟨some "t", [⟨200, "", .obj [("data", .null)]⟩]⟩
        ⟨"o", "p", some "PID", some "", some "T", some "B"⟩ =
      (.ok (.obj [("data", .null)]),
       [⟨addDraftIssueMutation,
         .obj [("input", .obj [("projectId", .str "PID"), ("title", .str "T"),
               ("body", .str "B")])]⟩]) ∧
    addDraftIssueMutation ≠ addProjectItemMutation :=
  ⟨rfl, by decide⟩

/-- Witness for the amended C3 theorem: a concrete invocation supplying
both a nonempty `contentId` and a `title` issues the content-linking
mutation with no `title` or `body` in its variables. -/
theorem contentId_precedence_witness :
    (⟨addProjectItemMutation,
      .obj [("input", .obj [("projectId", .str "PID"), ("contentId", .str "C")])]⟩ :
        NetCall).query = getProjectIdQuery ∨
    ((⟨addProjectItemMutation,
       .obj [("input", .obj [("projectId", .str "PID"), ("contentId", .str "C")])]⟩ :
        NetCall).query = addProjectItemMutation ∧
     NetCall.inputField ⟨addProjectItemMutation,
       .obj [("input", .obj [("projectId", .str "PID"), ("contentId", .str "C")])]⟩
       "title" = none ∧
     NetCall.inputField ⟨addProjectItemMutation,
       .obj [("input", .obj [("projectId", .str "PID"), ("contentId", .str "C")])]⟩
       "body" = none ∧
     NetCall.inputField ⟨addProjectItemMutation,
       .obj [("input", .obj [("projectId", .str "PID"), ("contentId", .str "C")])]⟩
       "contentId" = some (.str ((some "C").getD ""))) :=
  contentId_precedence ⟨some "t", [⟨200, "", .null⟩]⟩
    ⟨"o", "p", some "PID", some "C", some "T", some "B"⟩ rfl
    ⟨addProjectItemMutation,
      .obj [("input", .obj [("projectId", .str "PID"), ("contentId", .str "C")])]⟩
    (by exact List.Mem.head _)

/-- C10: when `projectId` is absent and the lookup returns a non-empty
node list, the identifier bound as `input.projectId` of the primary
mutation is the `id` of the FIRST node of the search result — with no
hypothesis relating the `title` of any node to the supplied `projectName`, so
no title check is performed. -/
theorem first_node_id_used (tok bt : String) (st : Nat) (v : JVal)
    (fs : List (String × JVal)) (tl : List JVal) (r2 : HttpResponse)
    (rest : List HttpResponse) (p : AddItemParams)
    (hp : strTruthy p.projectId = false) (hc : strTruthy p.contentId = true)
    (h1 : 200 ≤ st) (h2 : st < 300) :
    (add_item_to_project
        ⟨some tok, ⟨st, bt, lookupBody (.obj (("id", v) :: fs) :: tl)⟩ :: r2 :: rest⟩
        p).2 =
      [⟨getProjectIdQuery,
        .obj [("org", .str p.organization), ("projectName", .str p.projectName)]⟩,
       ⟨addProjectItemMutation,
        .obj [("input", .obj [("projectId", v),
              ("contentId", .str (p.contentId.getD ""))])]⟩] := by
  have hfp : firstProjectId (lookupBody (.obj (("id", v) :: fs) :: tl)) =
      .ok (some v) := by
    simp [firstProjectId, lookupBody, jsGet, jsIndex, jlookup, Except.bind, bind]
  have hg : getProjectId (some tok)
      (⟨st, bt, lookupBody (.obj (("id", v) :: fs) :: tl)⟩ :: r2 :: rest)
      p.organization p.projectName =
      (.ok (some v),
       [⟨getProjectIdQuery,
         .obj [("org", .str p.organization), ("projectName", .str p.projectName)]⟩],
       r2 :: rest) := by
    simp [getProjectId,
      exec_ok tok getProjectIdQuery
        (.obj [("org", .str p.organization), ("projectName", .str p.projectName)])
        ⟨st, bt, lookupBody (.obj (("id", v) :: fs) :: tl)⟩ (r2 :: rest) h1 h2, hfp]
  simp [add_item_to_project, hp, hg, hc, optField,
    exec_calls_cons tok addProjectItemMutation
      (.obj [("input", .obj [("projectId", v),
            ("contentId", .str (p.contentId.getD ""))])]) r2 rest]

/-- Witness for C10: the first (and only) node of the lookup is titled
`Zebra`, different from the requested project name `Alpha`, yet its id
`PVT_zebra` is the one bound into the mutation. -/
theorem first_node_id_used_witness :
    (add_item_to_project
        ⟨some "t",
         [⟨200, "", lookupBody [.obj [("id", .str "PVT_zebra"),
            ("title", .str "Zebra")]]⟩, ⟨200, "", .null⟩]⟩
        ⟨"org", "Alpha", none, some "C", none, none⟩).2 =
      [⟨getProjectIdQuery,
        .obj [("org", .str "org"), ("projectName", .str "Alpha")]⟩,
       ⟨addProjectItemMutation,
        .obj [("input", .obj [("projectId", .str "PVT_zebra"),
              ("contentId", .str "C")])]⟩] ∧
    "Zebra" ≠ "Alpha" :=
  ⟨first_node_id_used "t" "" 200 (.str "PVT_zebra") [("title", .str "Zebra")] []
      ⟨200, "", .null⟩ [] ⟨"org", "Alpha", none, some "C", none, none⟩
      rfl rfl (by norm_num) (by norm_num),
   by decide⟩

/-- C9 (amended): every transmitted GraphQL document is one of the fixed
per-operation constants, into which no caller-supplied string value is
ever interpolated; `isOrg` selects between the two `get_repositories`
documents, and within `add_item_to_project` the parameter-presence
branches select among its three fixed documents (lookup, content-linking
mutation, draft mutation). -/
theorem fixed_documents :
    (∀ env org c, c ∈ (get_github_projects env org).2 →
      c.query = getGithubProjectsQuery) ∧
    (∀ env pid c, c ∈ (get_project_details env pid).2 →
      c.query = getProjectDetailsQuery) ∧
    (∀ env owner repo states first c,
      c ∈ (get_repository_issues env owner repo states first).2 →
      c.query = getRepositoryIssuesQuery) ∧
    (∀ env owner repo states first c,
      c ∈ (get_repository_pull_requests env owner repo states first).2 →
      c.query = getRepositoryPullRequestsQuery) ∧
    (∀ env pid iid fid v c, c ∈ (update_project_item_field env pid iid fid v).2 →
      c.query = updateProjectItemFieldMutation) ∧
    (∀ env owner isOrg first c, c ∈ (get_repositories env owner isOrg first).2 →
      c.query = (if isOrg then getOrgReposQuery else getUserReposQuery)) ∧
    (∀ env pid c, c ∈ (get_project_views env pid).2 →
      c.query = getProjectViewsQuery) ∧
    (∀ env p c, c ∈ (add_item_to_project env p).2 →
      c.query = getProjectIdQuery ∨ c.query = addProjectItemMutation ∨
      c.query = addDraftIssueMutation) := by
  refine ⟨?_, ?_, ?_, ?_, ?_, ?_, ?_, ?_⟩
  · intro env org c hc
    have := exec_call_eq env.token env.responses getGithubProjectsQuery
      (.obj [("org", .str org)]) c (by simpa [get_github_projects] using hc)
    simp [this]
  · intro env pid c hc
    have := exec_call_eq env.token env.responses getProjectDetailsQuery
      (.obj [("id", .str pid)]) c (by simpa [get_project_details] using hc)
    simp [this]
  · intro env owner repo states first c hc
    have := exec_call_eq env.token env.responses getRepositoryIssuesQuery
      (.obj [("owner", .str owner), ("repo", .str repo),
        ("states", .arr ((if states = "ALL" then ["OPEN", "CLOSED"]
          else [states]).map JVal.str)), ("first", .num first)]) c
      (by simpa [get_repository_issues] using hc)
    simp [this]
  · intro env owner repo states first c hc
    have := exec_call_eq env.token env.responses getRepositoryPullRequestsQuery
      (.obj [("owner", .str owner), ("repo", .str repo),
        ("states", .arr ((if states = "ALL" then ["OPEN", "CLOSED", "MERGED"]
          else [states]).map JVal.str)), ("first", .num first)]) c
      (by simpa [get_repository_pull_requests] using hc)
    simp [this]
  · intro env pid iid fid v c hc
    have := exec_call_eq env.token env.responses updateProjectItemFieldMutation
      (.obj [("input", .obj [("projectId", .str pid), ("itemId", .str iid),
        ("fieldId", .str fid), ("value", .str v)])]) c
      (by simpa [update_project_item_field] using hc)
    simp [this]
  · intro env owner isOrg first c hc
    have := exec_call_eq env.token env.responses
      (if isOrg then getOrgReposQuery else getUserReposQuery)
      (.obj [("owner", .str owner), ("first", .num first)]) c
      (by simpa [get_repositories] using hc)
    simp [this]
  · intro env pid c hc
    have := exec_call_eq env.token env.responses getProjectViewsQuery
      (.obj [("id", .str pid)]) c (by simpa [get_project_views] using hc)
    simp [this]
  · intro env p c hcm
    cases hpj : strTruthy p.projectId with
    | true =>
      cases hcid : strTruthy p.contentId with
      | true =>
        have := exec_call_eq env.token env.responses addProjectItemMutation
          (.obj [("input", .obj [("projectId", .str (p.projectId.getD "")),
            ("contentId", .str (p.contentId.getD ""))])]) c
          (by simpa [add_item_to_project, hpj, hcid] using hcm)
        simp [this]
      | false =>
        cases ht : strTruthy p.title with
        | true =>
          have := exec_call_eq env.token env.responses addDraftIssueMutation
            (.obj [("input", .obj [("projectId", .str (p.projectId.getD "")),
              ("title", .str (p.title.getD "")), ("body", .str (p.body.getD ""))])]) c
            (by simpa [add_item_to_project, hpj, hcid, ht] using hcm)
          simp [this]
        | false =>
          simp [add_item_to_project, hpj, hcid, ht] at hcm
    | false =>
      rcases hg : getProjectId env.token env.responses p.organization p.projectName
        with ⟨res, calls, rest⟩
      have hlk := getProjectId_call_eq env.token env.responses p.organization p.projectName
      rw [hg] at hlk
      cases res with
      | error e =>
        have hmain : add_item_to_project env p = (.error e, calls) := by
          simp [add_item_to_project, hpj, hg]
        rw [hmain] at hcm
        have := hlk c (by simpa using hcm)
        simp [this]
      | ok v =>
        cases hcid : strTruthy p.contentId with
        | true =>
          have hmain : (add_item_to_project env p).2 =
              calls ++ (executeGitHubGraphQL env.token rest addProjectItemMutation
                (.obj [("input", .obj (optField "projectId" v ++
                  [("contentId", .str (p.contentId.getD ""))]))])).2.1 := by
            simp [add_item_to_project, hpj, hg, hcid]
          rw [hmain] at hcm
          rcases List.mem_append.mp hcm with hcl | hcr
          · have := hlk c (by simpa using hcl)
            simp [this]
          · have := exec_call_eq env.token rest addProjectItemMutation
              (.obj [("input", .obj (optField "projectId" v ++
                [("contentId", .str (p.contentId.getD ""))]))]) c hcr
            simp [this]
        | false =>
          cases ht : strTruthy p.title with
          | true =>
            have hmain : (add_item_to_project env p).2 =
                calls ++ (executeGitHubGraphQL env.token rest addDraftIssueMutation
                  (.obj [("input", .obj (optField "projectId" v ++
                    [("title", .str (p.title.getD "")),
                     ("body", .str (p.body.getD ""))]))])).2.1 := by
              simp [add_item_to_project, hpj, hg, hcid, ht]
            rw [hmain] at hcm
            rcases List.mem_append.mp hcm with hcl | hcr
            · have := hlk c (by simpa using hcl)
              simp [this]
            · have := exec_call_eq env.token rest addDraftIssueMutation
                (.obj [("input", .obj (optField "projectId" v ++
                  [("title", .str (p.title.getD "")),
                   ("body", .str (p.body.getD ""))]))]) c hcr
              simp [this]
          | false =>
            have hmain : (add_item_to_project env p).2 = calls := by
              simp [add_item_to_project, hpj, hg, hcid, ht]
            rw [hmain] at hcm
            have := hlk c (by simpa using hcm)
            simp [this]

/-- Counterexample for C9 as stated: two validated parameter sets of
`add_item_to_project` that agree on every non-string-valued selector
(there are none in this operation) transmit different document texts —
the content-linking mutation versus the draft-issue mutation — so `isOrg`
of `get_repositories` is not the only selector between documents. -/
theorem add_item_documents_differ :
    ((add_item_to_project ⟨some "t", [⟨200, "", .null⟩]⟩
        ⟨"o", "p", some "PID", some "C", none, none⟩).2.map NetCall.query =
      [addProjectItemMutation]) ∧
    ((add_item_to_project ⟨some "t", [⟨200, "", .null⟩]⟩
        ⟨"o", "p", some "PID", none, some "T", none⟩).2.map NetCall.query =
      [addDraftIssueMutation]) ∧
    addProjectItemMutation ≠ addDraftIssueMutation :=
  ⟨rfl, rfl, by decide⟩

/-- Witness for the amended C9 theorem: a concrete `get_github_projects`
call carries exactly the fixed document constant. -/
theorem fixed_documents_witness :
    (⟨getGithubProjectsQuery, .obj [("org", .str "o")]⟩ : NetCall).query =
      getGithubProjectsQuery :=
  fixed_documents.1 ⟨some "t", [⟨200, "", .null⟩]⟩ "o"
    ⟨getGithubProjectsQuery, .obj [("org", .str "o")]⟩ (by exact List.Mem.head _)
